import Mathlib

/-!
Verification of `tools/verify_background_visibility.py` (gates A-F for
background visibility of the Decantra game).

Shallow embedding conventions:
* numpy float arithmetic is modelled exactly over `ℚ`;
* an image is a `Mat` (height, width, and a value function); pixel buffers
  are `RgbMat` with three 8-bit channel functions;
* `cv2.GaussianBlur` is an external library primitive (not code of this
  repository); every definition that needs it takes an abstract
  `blur : Mat → Mat` parameter;
* Python `round` is half-to-even (`pyRound`); numpy slicing `a[y0:y1, x0:x1]`
  for the non-negative in-range bounds produced by `get_rois` clamps each
  bound into `[0, dim]` (`roiSlice`);
* a Python function that raises is embedded in `Except String`.
-/

set_option maxRecDepth 400000

/-- Python `round`: round half to even, on exact rationals. -/
def pyRound (q : ℚ) : ℤ :=
  if q - ⌊q⌋ < 1/2 then ⌊q⌋
  else if 1/2 < q - ⌊q⌋ then ⌊q⌋ + 1
  else if ⌊q⌋ % 2 = 0 then ⌊q⌋ else ⌊q⌋ + 1

/-- A single-channel 2-D field (numpy array of shape (h, w)) with rational
entries, e.g. a luminance field. -/
structure Mat where
  h : ℕ
  w : ℕ
  val : ℕ → ℕ → ℚ

/-- A decoded RGB pixel buffer (numpy array of shape (h, w, 3), uint8). -/
structure RgbMat where
  h : ℕ
  w : ℕ
  r : ℕ → ℕ → ℕ
  g : ℕ → ℕ → ℕ
  b : ℕ → ℕ → ℕ

/-- The `Roi` dataclass: a named rectangle with integer bounds. -/
structure Roi where
  name : String
  x0 : ℤ
  x1 : ℤ
  y0 : ℤ
  y1 : ℤ

def Roi.rwidth (r : Roi) : ℤ := max 0 (r.x1 - r.x0)

def Roi.rheight (r : Roi) : ℤ := max 0 (r.y1 - r.y0)

def Roi.area (r : Roi) : ℤ := r.rwidth * r.rheight

/-- `GateResult` dataclass. -/
structure GateResult where
  name : String
  passed : Bool
  details : List String
deriving DecidableEq, Inhabited

-- Gate thresholds (fixed), from the constant block at the top of the script.
def GATE_A_CONTRAST_MIN : ℚ := 35/100
def GATE_B_RATIO_MIN : ℚ := 35/100
def GATE_B_TOTAL_TRANSITIONS_MIN : ℕ := 12
def GATE_B_ROI_TRANSITIONS_MIN : ℕ := 4
def GATE_C_STAR_LUMA_MIN : ℚ := 200
def GATE_C_STAR_DENSITY_MIN : ℚ := 5/10000
def GATE_D_P50_MIN : ℚ := 14
def GATE_D_P05_MIN : ℚ := 6
def GATE_E_MOTION_DELTA_MIN : ℚ := 2
def GATE_E_MOVING_RATIO_MIN : ℚ := 2/1000

/-- Square of `GATE_F_CORRELATION_MAX = 0.75`.  The script compares the dot
product of two L2-normalized histograms against `0.75`; both sides are
non-negative, so the comparison is equivalent to comparing the squared
correlation against `(3/4)^2 = 9/16`, which keeps the embedding rational. -/
def GATE_F_CORRELATION_MAX_SQ : ℚ := 9/16

/-- `calculate_luminance`: per-pixel dot product with the fixed weights
`(0.2126, 0.7152, 0.0722)`. -/
def calculate_luminance (img : RgbMat) : Mat :=
  ⟨img.h, img.w, fun y x =>
    (2126 * img.r y x + 7152 * img.g y x + 722 * img.b y x : ℚ) / 10000⟩

/-- `get_rois`: the left band is columns `[0, round(0.12 w))` and the right
band columns `[round(0.88 w), w)`, both over rows
`[round(0.25 h), round(0.75 h))`. -/
def get_rois (width height : ℕ) : Roi × Roi :=
  let y0 := pyRound ((25/100 : ℚ) * height)
  let y1 := pyRound ((75/100 : ℚ) * height)
  let left : Roi := ⟨"Left", 0, pyRound ((12/100 : ℚ) * width), y0, y1⟩
  let right : Roi := ⟨"Right", pyRound ((88/100 : ℚ) * width), width, y0, y1⟩
  (left, right)

/-- `roi_slice`: the flattened (row-major) list of entries of
`arr[roi.y0:roi.y1, roi.x0:roi.x1]`, with the numpy clamping of each
non-negative slice bound into `[0, dim]`. -/
def roiSlice (m : Mat) (roi : Roi) : List ℚ :=
  let ylo := min roi.y0.toNat m.h
  let yhi := min roi.y1.toNat m.h
  let xlo := min roi.x0.toNat m.w
  let xhi := min roi.x1.toNat m.w
  ((List.range' ylo (yhi - ylo)).map fun y =>
    (List.range' xlo (xhi - xlo)).map fun x => m.val y x).flatten

/-- Ascending sort used by the percentile computation. -/
def sortedAsc (l : List ℚ) : List ℚ := l.insertionSort (· ≤ ·)

/-- `np.percentile(a, q)` with the default linear interpolation: with the
data sorted ascending and `pos = q (n-1) / 100`, interpolate linearly
between the entries at `⌊pos⌋` and `⌊pos⌋ + 1`. -/
def percentile (l : List ℚ) (q : ℚ) : ℚ :=
  let s := sortedAsc l
  let n := s.length
  let pos : ℚ := q * (n - 1) / 100
  let i : ℕ := ⌊pos⌋.toNat
  let g : ℚ := pos - i
  s.getD i 0 + g * (s.getD (i + 1) 0 - s.getD i 0)

/-- `gate_a_cloud_visibility`: returns `(p05, p50, p95, contrast, passed)`. -/
def gate_a_cloud_visibility (blurred_luma : Mat) (roi : Roi) :
    ℚ × ℚ × ℚ × ℚ × Bool :=
  let region := roiSlice blurred_luma roi
  if region.length = 0 then (0, 0, 0, 0, false)
  else
    let p05 := percentile region 5
    let p50 := percentile region 50
    let p95 := percentile region 95
    let contrast := (p95 - p05) / max p50 1
    (p05, p50, p95, contrast, decide (contrast ≥ GATE_A_CONTRAST_MIN))

/-- `gate_c_star_density`: returns `(density, passed)`. -/
def gate_c_star_density (luma : Mat) (roi : Roi) : ℚ × Bool :=
  let region := roiSlice luma roi
  if region.length = 0 then (0, false)
  else
    let star_count := (region.filter fun v => GATE_C_STAR_LUMA_MIN ≤ v).length
    let density := (star_count : ℚ) / region.length
    (density, decide (density ≥ GATE_C_STAR_DENSITY_MIN))

/-- `gate_d_non_black`: returns `(p50, p05, passed)`. -/
def gate_d_non_black (luma : Mat) (roi : Roi) : ℚ × ℚ × Bool :=
  let region := roiSlice luma roi
  if region.length = 0 then (0, 0, false)
  else
    let p50 := percentile region 50
    let p05 := percentile region 5
    (p50, p05, decide (p50 ≥ GATE_D_P50_MIN ∧ p05 ≥ GATE_D_P05_MIN))

/-- `average_window`: mean of a `window × window` patch of `luma` centred at
`(x, y)` and clamped to the ROI; falls back to the single pixel when the
clamped patch is empty. -/
def average_window (luma : Mat) (roi : Roi) (x y : ℤ) (window : ℕ) : ℚ :=
  let half : ℤ := (window / 2 : ℕ)
  let x0 := max roi.x0 (x - half)
  let x1 := min (roi.x1 - 1) (x + half)
  let y0 := max roi.y0 (y - half)
  let y1 := min (roi.y1 - 1) (y + half)
  if x1 < x0 ∨ y1 < y0 then luma.val y.toNat x.toNat
  else
    let patch := roiSlice luma ⟨"", x0, x1 + 1, y0, y1 + 1⟩
    patch.sum / patch.length

/-- The closed clockwise path 3 pixels inside the ROI border walked by
`gate_b_transition_count`: top edge left to right, right edge top to bottom,
bottom edge right to left, left edge bottom to top. -/
def gateBPath (left right top bottom : ℤ) : List (ℤ × ℤ) :=
  ((List.range (right + 1 - left).toNat).map
    fun (i : ℕ) => (left + (i : ℤ), top)) ++
  ((List.range (bottom - top).toNat).map
    fun (i : ℕ) => (right, top + 1 + (i : ℤ))) ++
  ((List.range (right - left).toNat).map
    fun (i : ℕ) => (right - 1 - (i : ℤ), bottom)) ++
  ((List.range (bottom - 1 - top).toNat).map
    fun (i : ℕ) => (left, bottom - 1 - (i : ℤ)))

/-- The relative delta `|curr - prev| / max(prev, 1)` between two samples. -/
def relDelta (prev curr : ℚ) : ℚ := |curr - prev| / max prev 1

/-- The transition counter of `gate_b_transition_count`: one count per
consecutive pair of samples with relative delta at least 0.35, plus the
wraparound comparison of the first sample against the last. -/
def countTransitions (values : List ℚ) : ℕ :=
  ((values.zip values.tail).filter fun pc =>
    decide (relDelta pc.1 pc.2 ≥ GATE_B_RATIO_MIN)).length +
  (if relDelta (values.getLastD 0) (values.headD 0) ≥ GATE_B_RATIO_MIN
   then 1 else 0)

/-- `gate_b_transition_count`: returns `(transitions, passed, values)`. -/
def gate_b_transition_count (blurred_luma : Mat) (roi : Roi) :
    ℕ × Bool × List ℚ :=
  let inset : ℤ := 3
  let left := roi.x0 + inset
  let right := roi.x1 - 1 - inset
  let top := roi.y0 + inset
  let bottom := roi.y1 - 1 - inset
  if right ≤ left ∨ bottom ≤ top then (0, false, [])
  else
    let path := gateBPath left right top bottom
    if path.length < 2 then (0, false, [])
    else
      let values := path.map fun p => average_window blurred_luma roi p.1 p.2 5
      let transitions := countTransitions values
      (transitions, decide (transitions ≥ GATE_B_ROI_TRANSITIONS_MIN), values)

/-- `MotionMetrics` dataclass. -/
structure MotionMetrics where
  per_pair_left : List ℚ
  per_pair_right : List ℚ
  avg_left : ℚ
  avg_right : ℚ
  passed_left : Bool
  passed_right : Bool

/-- Pointwise absolute difference of two luminance fields
(`np.abs(luma_b - luma_a)`), on the first field's shape. -/
def absDiff (luma_a luma_b : Mat) : Mat :=
  ⟨luma_a.h, luma_a.w, fun y x => |luma_b.val y x - luma_a.val y x|⟩

/-- Per-pair moving ratio of one ROI inside `compute_motion_metrics`: the
fraction of ROI pixels of the delta field at least 2.0, and 0 on an empty
region. -/
def movingRatio (diff : Mat) (roi : Roi) : ℚ :=
  let region := roiSlice diff roi
  if region.length = 0 then 0
  else ((region.filter fun v => decide (GATE_E_MOTION_DELTA_MIN ≤ v)).length : ℚ)
        / region.length

/-- `compute_motion_metrics`: per adjacent frame pair, the per-ROI moving
ratio of the absolute luminance delta field; averaged per ROI; each ROI
passes iff its average is at least 0.002. -/
def compute_motion_metrics (frames : List RgbMat) (left right : Roi) :
    MotionMetrics :=
  let pairs := frames.zip frames.tail
  let diffs := pairs.map fun p =>
    absDiff (calculate_luminance p.1) (calculate_luminance p.2)
  let per_pair_left := diffs.map fun d => movingRatio d left
  let per_pair_right := diffs.map fun d => movingRatio d right
  let avg_left := if per_pair_left.length = 0 then 0
    else per_pair_left.sum / per_pair_left.length
  let avg_right := if per_pair_right.length = 0 then 0
    else per_pair_right.sum / per_pair_right.length
  ⟨per_pair_left, per_pair_right, avg_left, avg_right,
   decide (avg_left ≥ GATE_E_MOVING_RATIO_MIN),
   decide (avg_right ≥ GATE_E_MOVING_RATIO_MIN)⟩

/-- All entries of a field, row-major (the flattened numpy array). -/
def allVals (m : Mat) : List ℚ :=
  ((List.range m.h).map fun y => (List.range m.w).map fun x => m.val y x).flatten

/-- Count of bin `i` of `np.histogram(vals, bins=64, range=(0, 255))`:
64 equal bins over `[0, 255]`, each half-open except the last, which also
contains the right edge; values outside `[0, 255]` are dropped. -/
def binCount (vals : List ℚ) (i : ℕ) : ℕ :=
  if i = 63 then
    (vals.filter fun v => decide ((255 * i / 64 : ℚ) ≤ v ∧ v ≤ 255)).length
  else
    (vals.filter fun v =>
      decide ((255 * i / 64 : ℚ) ≤ v ∧ v < 255 * (i + 1) / 64)).length

/-- The 64-bin histogram of a field over `[0, 255]` (unnormalized counts). -/
def hist64 (m : Mat) : List ℕ := (List.range 64).map (binCount (allVals m))

def sumsq (h : List ℕ) : ℕ := (h.map fun c => c * c).sum

def dotH (a b : List ℕ) : ℕ := ((a.zip b).map fun p => p.1 * p.2).sum

/-- Squared correlation of two histograms.  The script L2-normalizes each
histogram (returning the raw zero histogram when its norm is 0, whose dot
product with anything is 0) and takes the dot product; for non-negative
integer histograms that correlation is `dotH a b / sqrt (sumsq a * sumsq b)`,
so its square is the rational below, and comparisons of the non-negative
correlation against a non-negative threshold square faithfully. -/
def corrSq (a b : List ℕ) : ℚ :=
  if sumsq a = 0 ∨ sumsq b = 0 then 0
  else ((dotH a b : ℚ)) ^ 2 / ((sumsq a : ℚ) * (sumsq b : ℚ))

/-- The inner `blurred_hist` of `gate_f_theme_separation`: decode, luminance,
blur (the external Gaussian primitive at sigma `max(20, round(0.01 h))`,
abstracted as `blur`), then the 64-bin histogram.  L2 normalization is folded
into `corrSq`. -/
def blurred_hist (blur : Mat → Mat) (img : RgbMat) : List ℕ :=
  hist64 (blur (calculate_luminance img))

/-- Python `repr` of a list of ints, as interpolated into the missing-levels
message. -/
def pyIntListRepr (l : List ℕ) : String :=
  "[" ++ String.intercalate ", " (l.map toString) ++ "]"

/-- `gate_f_theme_separation`: raises (here `.error`) when one of the
required level screenshots 1, 10, 20 is missing; otherwise returns the two
squared pairwise correlations and their pass flags
(`corr <= 0.75`, i.e. `corrSq <= 9/16`). -/
def gate_f_theme_separation (blur : Mat → Mat)
    (level_paths : ℕ → Option RgbMat) :
    Except String (ℚ × ℚ × Bool × Bool) :=
  let missing := [1, 10, 20].filter fun lvl => (level_paths lvl).isNone
  match level_paths 1, level_paths 10, level_paths 20 with
  | some img1, some img10, some img20 =>
      let hist_1 := blurred_hist blur img1
      let hist_10 := blurred_hist blur img10
      let hist_20 := blurred_hist blur img20
      let corr_1_10 := corrSq hist_1 hist_10
      let corr_10_20 := corrSq hist_10 hist_20
      .ok (corr_1_10, corr_10_20,
           decide (corr_1_10 ≤ GATE_F_CORRELATION_MAX_SQ),
           decide (corr_10_20 ≤ GATE_F_CORRELATION_MAX_SQ))
  | _, _, _ => .error ("Missing required level screenshots: " ++ pyIntListRepr missing)

/-- Rendering of a rational into diagnostic text.  The script renders floats
with fixed-point f-strings; the exact digit strings are cosmetic, so numbers
are rendered as exact fractions here. -/
def fmtQ (q : ℚ) : String := toString q.num ++ "/" ++ toString q.den

/-- The Gate E `GateResult` appended by `verify_image` when motion is
required: a fixed failing diagnostic when the motion metrics are missing,
otherwise the two per-ROI averaged-moving-ratio verdicts ANDed. -/
def gate_e_result (mm : Option MotionMetrics) : GateResult :=
  match mm with
  | none =>
      ⟨"Gate E", false,
       ["Motion frames missing or insufficient (need >= 3 frames).",
        "Generate motion frames with decantra motion capture and rerun."]⟩
  | some m =>
      ⟨"Gate E", m.passed_left && m.passed_right,
       ["Left ROI moving_ratio_avg=" ++ fmtQ m.avg_left ++
          " (threshold >= " ++ fmtQ GATE_E_MOVING_RATIO_MIN ++ ")",
        "Right ROI moving_ratio_avg=" ++ fmtQ m.avg_right ++
          " (threshold >= " ++ fmtQ GATE_E_MOVING_RATIO_MIN ++ ")",
        "Left ROI per-pair ratios=" ++
          String.intercalate ", " (m.per_pair_left.map fmtQ),
        "Right ROI per-pair ratios=" ++
          String.intercalate ", " (m.per_pair_right.map fmtQ)]⟩

/-- `verify_image`: resolves the two ROIs, computes the raw and blurred
luminance fields, and returns the `GateResult`s of Gates A-D, plus Gate E
when motion is required. -/
def verify_image (blur : Mat → Mat) (img : RgbMat) (require_motion : Bool)
    (motion_metrics : Option MotionMetrics) : List GateResult :=
  let rois := get_rois img.w img.h
  let left := rois.1
  let right := rois.2
  let luma := calculate_luminance img
  let blurred := blur luma
  let a_left := gate_a_cloud_visibility blurred left
  let a_right := gate_a_cloud_visibility blurred right
  let resA : GateResult :=
    ⟨"Gate A", a_left.2.2.2.2 && a_right.2.2.2.2,
     ["Left ROI contrast=" ++ fmtQ a_left.2.2.2.1 ++ " (P05=" ++
        fmtQ a_left.1 ++ ", P50=" ++ fmtQ a_left.2.1 ++ ", P95=" ++
        fmtQ a_left.2.2.1 ++ ")",
      "Right ROI contrast=" ++ fmtQ a_right.2.2.2.1 ++ " (P05=" ++
        fmtQ a_right.1 ++ ", P50=" ++ fmtQ a_right.2.1 ++ ", P95=" ++
        fmtQ a_right.2.2.1 ++ ")",
      "Threshold contrast >= " ++ fmtQ GATE_A_CONTRAST_MIN]⟩
  let b_left := gate_b_transition_count blurred left
  let b_right := gate_b_transition_count blurred right
  let total_transitions := b_left.1 + b_right.1
  let resB : GateResult :=
    ⟨"Gate B",
     b_left.2.1 && b_right.2.1 &&
       decide (total_transitions ≥ GATE_B_TOTAL_TRANSITIONS_MIN),
     ["Left ROI transitions=" ++ toString b_left.1 ++ " (threshold >= " ++
        toString GATE_B_ROI_TRANSITIONS_MIN ++ ")",
      "Right ROI transitions=" ++ toString b_right.1 ++ " (threshold >= " ++
        toString GATE_B_ROI_TRANSITIONS_MIN ++ ")",
      "Total transitions=" ++ toString total_transitions ++
        " (threshold >= " ++ toString GATE_B_TOTAL_TRANSITIONS_MIN ++ ")"]⟩
  let c_left := gate_c_star_density luma left
  let c_right := gate_c_star_density luma right
  let resC : GateResult :=
    ⟨"Gate C", c_left.2 && c_right.2,
     ["Left ROI star_density=" ++ fmtQ c_left.1 ++ " (threshold >= " ++
        fmtQ GATE_C_STAR_DENSITY_MIN ++ ")",
      "Right ROI star_density=" ++ fmtQ c_right.1 ++ " (threshold >= " ++
        fmtQ GATE_C_STAR_DENSITY_MIN ++ ")"]⟩
  let d_left := gate_d_non_black luma left
  let d_right := gate_d_non_black luma right
  let resD : GateResult :=
    ⟨"Gate D", d_left.2.2 && d_right.2.2,
     ["Left ROI P50=" ++ fmtQ d_left.1 ++ ", P05=" ++ fmtQ d_left.2.1 ++
        " (thresholds >= " ++ fmtQ GATE_D_P50_MIN ++ " / " ++
        fmtQ GATE_D_P05_MIN ++ ")",
      "Right ROI P50=" ++ fmtQ d_right.1 ++ ", P05=" ++ fmtQ d_right.2.1 ++
        " (thresholds >= " ++ fmtQ GATE_D_P50_MIN ++ " / " ++
        fmtQ GATE_D_P05_MIN ++ ")"]⟩
  [resA, resB, resC, resD] ++
    (if require_motion then [gate_e_result motion_metrics] else [])

/-- The Gate F pass flag as `main` computes it: both pairwise correlation
checks when `gate_f_theme_separation` returned, `False` when it raised
(the `except ValueError` branch). -/
def gate_f_flag (res : Except String (ℚ × ℚ × Bool × Bool)) : Bool :=
  match res with
  | .ok out => out.2.2.1 && out.2.2.2
  | .error _ => false

/-- The verdict aggregation of `main`: starting from `True`, AND in every
gate result of every image and, once per image, the Gate F flag; afterwards
force failure when motion was required but the metrics were unavailable.
The image list, motion metrics and Gate F outcome arrive as inputs because
file discovery, decoding and frame loading are external I/O. -/
def main_verify (blur : Mat → Mat) (images : List RgbMat)
    (require_motion : Bool) (motion_metrics : Option MotionMetrics)
    (gate_f_res : Except String (ℚ × ℚ × Bool × Bool)) : Bool :=
  let gate_f_passed := gate_f_flag gate_f_res
  let all_passed := images.foldl
    (fun acc img =>
      ((verify_image blur img require_motion motion_metrics).foldl
        (fun a res => a && res.passed) acc) && gate_f_passed)
    true
  if require_motion && motion_metrics.isNone then false else all_passed

/-- The process exit code of `main`: `0` iff the overall verdict passed. -/
def main_exit (blur : Mat → Mat) (images : List RgbMat)
    (require_motion : Bool) (motion_metrics : Option MotionMetrics)
    (gate_f_res : Except String (ℚ × ℚ × Bool × Bool)) : ℕ :=
  if main_verify blur images require_motion motion_metrics gate_f_res
  then 0 else 1

/-! ### Helper lemmas -/

theorem pyRound_ge_floor (q : ℚ) : ⌊q⌋ ≤ pyRound q := by
  unfold pyRound
  split_ifs <;> omega

theorem pyRound_le_floor_add_one (q : ℚ) : pyRound q ≤ ⌊q⌋ + 1 := by
  unfold pyRound
  split_ifs <;> omega

theorem pyRound_mono {q q' : ℚ} (h : q ≤ q') : pyRound q ≤ pyRound q' := by
  rcases lt_or_le ⌊q⌋ ⌊q'⌋ with hf | hf
  · calc pyRound q ≤ ⌊q⌋ + 1 := pyRound_le_floor_add_one q
      _ ≤ ⌊q'⌋ := by omega
      _ ≤ pyRound q' := pyRound_ge_floor q'
  · have hq : ⌊q⌋ = ⌊q'⌋ := le_antisymm (Int.floor_mono h) hf
    unfold pyRound
    rw [hq]
    split_ifs <;> first | omega | linarith

theorem pyRound_intCast (n : ℤ) : pyRound (n : ℚ) = n := by
  unfold pyRound
  rw [Int.floor_intCast]
  norm_num

theorem pyRound_natCast (n : ℕ) : pyRound (n : ℚ) = n := by
  have := pyRound_intCast (n : ℤ)
  rwa [Int.cast_natCast] at this

theorem pyRound_nonneg {q : ℚ} (h : 0 ≤ q) : 0 ≤ pyRound q := by
  have h0 : pyRound 0 ≤ pyRound q := pyRound_mono h
  have : pyRound (0 : ℚ) = 0 := by
    have := pyRound_intCast 0
    norm_num at this
    exact this
  omega

theorem sum_map_const_nat {α : Type} (l : List α) (c : ℕ) :
    (l.map fun _ => c).sum = l.length * c := by
  induction l with
  | nil => simp
  | cons x t ih => simp [ih, Nat.succ_mul, Nat.add_comm]

theorem roiSlice_length (m : Mat) (roi : Roi) :
    (roiSlice m roi).length =
      (min roi.y1.toNat m.h - min roi.y0.toNat m.h) *
      (min roi.x1.toNat m.w - min roi.x0.toNat m.w) := by
  unfold roiSlice
  rw [List.length_flatten, List.map_map]
  have : (List.length ∘ fun y =>
      (List.range' (min roi.x0.toNat m.w)
        (min roi.x1.toNat m.w - min roi.x0.toNat m.w)).map fun x => m.val y x) =
      fun _ => (min roi.x1.toNat m.w - min roi.x0.toNat m.w) := by
    funext y
    simp
  rw [this, sum_map_const_nat, List.length_range']

theorem roiSlice_eq_nil_of_area_eq_zero (m : Mat) (roi : Roi)
    (h : roi.area = 0) : roiSlice m roi = [] := by
  have harea : roi.x1 ≤ roi.x0 ∨ roi.y1 ≤ roi.y0 := by
    unfold Roi.area Roi.rwidth Roi.rheight at h
    rcases mul_eq_zero.mp h with h' | h' <;> omega
  apply List.eq_nil_of_length_eq_zero
  rw [roiSlice_length]
  rcases harea with h' | h'
  · have hx : min roi.x1.toNat m.w - min roi.x0.toNat m.w = 0 := by omega
    rw [hx, Nat.mul_zero]
  · have hy : min roi.y1.toNat m.h - min roi.y0.toNat m.h = 0 := by omega
    rw [hy, Nat.zero_mul]

theorem roiSlice_length_of_inBounds (m : Mat) (roi : Roi)
    (hx0 : 0 ≤ roi.x0) (hxw : roi.x1 ≤ (m.w : ℤ))
    (hy0 : 0 ≤ roi.y0) (hyh : roi.y1 ≤ (m.h : ℤ)) :
    ((roiSlice m roi).length : ℤ) = roi.area := by
  rw [roiSlice_length]
  unfold Roi.area Roi.rwidth Roi.rheight
  have hx : ((min roi.x1.toNat m.w - min roi.x0.toNat m.w : ℕ) : ℤ) =
      max 0 (roi.x1 - roi.x0) := by omega
  have hy : ((min roi.y1.toNat m.h - min roi.y0.toNat m.h : ℕ) : ℤ) =
      max 0 (roi.y1 - roi.y0) := by omega
  push_cast
  rw [hx, hy, mul_comm]

theorem foldl_and_passed (l : List GateResult) (acc : Bool) :
    l.foldl (fun a res => a && res.passed) acc = (acc && l.all (·.passed)) := by
  induction l generalizing acc with
  | nil => simp
  | cons x t ih => simp [ih, Bool.and_assoc]

theorem foldl_and_gate {α : Type} (P : α → Bool) (g : Bool)
    (l : List α) (acc : Bool) (h : l ≠ []) :
    l.foldl (fun a x => (a && P x) && g) acc = ((acc && l.all P) && g) := by
  induction l generalizing acc with
  | nil => exact absurd rfl h
  | cons x t ih =>
    rcases eq_or_ne t [] with ht | ht
    · subst ht; simp
    · rw [List.foldl_cons, ih _ ht, List.all_cons]
      cases acc <;> cases g <;> cases P x <;> cases t.all P <;> rfl

theorem mem_roiSlice {m : Mat} {roi : Roi} {v : ℚ} (hv : v ∈ roiSlice m roi) :
    ∃ y x, v = m.val y x := by
  simp only [roiSlice, List.mem_flatten, List.mem_map] at hv
  obtain ⟨inner, ⟨y, _, rfl⟩, hvi⟩ := hv
  obtain ⟨x, _, rfl⟩ := List.mem_map.mp hvi
  exact ⟨y, x, rfl⟩

theorem dotH_self (a : List ℕ) : dotH a a = sumsq a := by
  induction a with
  | nil => rfl
  | cons x t ih =>
    unfold dotH sumsq at *
    simp only [List.zip_cons_cons, List.map_cons, List.sum_cons] at *
    omega

theorem sumsq_eq_zero_entries {a : List ℕ} (h : sumsq a = 0) :
    ∀ c ∈ a, c = 0 := by
  intro c hc
  unfold sumsq at h
  have hall := (List.sum_eq_zero_iff).mp h (c * c) (List.mem_map_of_mem _ hc)
  exact (Nat.mul_eq_zero.mp hall).elim id id

theorem dotH_zero_left {a : List ℕ} (b : List ℕ) (h : ∀ c ∈ a, c = 0) :
    dotH a b = 0 := by
  induction a generalizing b with
  | nil => rfl
  | cons x t ih =>
    cases b with
    | nil => rfl
    | cons y s =>
      unfold dotH at *
      simp only [List.zip_cons_cons, List.map_cons, List.sum_cons]
      have hx := h x (List.mem_cons_self x t)
      have ht := ih s fun c hc => h c (List.mem_cons_of_mem x hc)
      simp [hx, ht]

theorem corrSq_self {a : List ℕ} (h : sumsq a ≠ 0) : corrSq a a = 1 := by
  unfold corrSq
  rw [if_neg (by tauto), dotH_self]
  have hS : ((sumsq a : ℚ)) ≠ 0 := Nat.cast_ne_zero.mpr h
  field_simp
  ring

theorem corrSq_zero_left (a b : List ℕ) (h : sumsq a = 0) :
    corrSq a b = 0 := by
  unfold corrSq
  rw [if_pos (Or.inl h)]

theorem corrSq_zero_right (a b : List ℕ) (h : sumsq b = 0) :
    corrSq a b = 0 := by
  unfold corrSq
  rw [if_pos (Or.inr h)]

/-! ### Claim theorems -/

/-- Claim C9: for all valid image width and height, ROI resolution rounds
each fractional bound to the nearest integer (Python half-to-even rounding),
the rounded bounds already lie in `[0, dimension]` (so clamping them there
is the identity), and every returned ROI satisfies
`0 ≤ x0 ≤ x1 ≤ width` and `0 ≤ y0 ≤ y1 ≤ height`. -/
theorem claim_C9 (width height : ℕ) :
    ((get_rois width height).1.x0 = 0 ∧
     (get_rois width height).1.x1 = pyRound ((12/100 : ℚ) * width) ∧
     (get_rois width height).2.x0 = pyRound ((88/100 : ℚ) * width) ∧
     (get_rois width height).2.x1 = width ∧
     (get_rois width height).1.y0 = pyRound ((25/100 : ℚ) * height) ∧
     (get_rois width height).1.y1 = pyRound ((75/100 : ℚ) * height) ∧
     (get_rois width height).2.y0 = (get_rois width height).1.y0 ∧
     (get_rois width height).2.y1 = (get_rois width height).1.y1) ∧
    (min (width : ℤ) (max 0 (get_rois width height).1.x1) =
       (get_rois width height).1.x1 ∧
     min (width : ℤ) (max 0 (get_rois width height).2.x0) =
       (get_rois width height).2.x0 ∧
     min (height : ℤ) (max 0 (get_rois width height).1.y0) =
       (get_rois width height).1.y0 ∧
     min (height : ℤ) (max 0 (get_rois width height).1.y1) =
       (get_rois width height).1.y1) ∧
    (0 ≤ (get_rois width height).1.x0 ∧
     (get_rois width height).1.x0 ≤ (get_rois width height).1.x1 ∧
     (get_rois width height).1.x1 ≤ (width : ℤ) ∧
     0 ≤ (get_rois width height).2.x0 ∧
     (get_rois width height).2.x0 ≤ (get_rois width height).2.x1 ∧
     (get_rois width height).2.x1 ≤ (width : ℤ) ∧
     0 ≤ (get_rois width height).1.y0 ∧
     (get_rois width height).1.y0 ≤ (get_rois width height).1.y1 ∧
     (get_rois width height).1.y1 ≤ (height : ℤ)) := by
  have hw : (0 : ℚ) ≤ width := Nat.cast_nonneg _
  have hh : (0 : ℚ) ≤ height := Nat.cast_nonneg _
  have h12n : 0 ≤ pyRound ((12/100 : ℚ) * width) :=
    pyRound_nonneg (by positivity)
  have h88n : 0 ≤ pyRound ((88/100 : ℚ) * width) :=
    pyRound_nonneg (by positivity)
  have h25n : 0 ≤ pyRound ((25/100 : ℚ) * height) :=
    pyRound_nonneg (by positivity)
  have h12w : pyRound ((12/100 : ℚ) * width) ≤ width := by
    calc pyRound ((12/100 : ℚ) * width) ≤ pyRound ((width : ℚ)) :=
          pyRound_mono (by linarith)
      _ = width := pyRound_natCast width
  have h88w : pyRound ((88/100 : ℚ) * width) ≤ width := by
    calc pyRound ((88/100 : ℚ) * width) ≤ pyRound ((width : ℚ)) :=
          pyRound_mono (by linarith)
      _ = width := pyRound_natCast width
  have h2575 : pyRound ((25/100 : ℚ) * height) ≤ pyRound ((75/100 : ℚ) * height) :=
    pyRound_mono (by linarith)
  have h75h : pyRound ((75/100 : ℚ) * height) ≤ height := by
    calc pyRound ((75/100 : ℚ) * height) ≤ pyRound ((height : ℚ)) :=
          pyRound_mono (by linarith)
      _ = height := pyRound_natCast height
  simp only [get_rois]
  refine ⟨by simp, ?_, ?_⟩ <;>
    (repeat' constructor) <;> first | trivial | omega

theorem area_eq_zero_cases {roi : Roi} (h : roi.area = 0) :
    roi.x1 ≤ roi.x0 ∨ roi.y1 ≤ roi.y0 := by
  unfold Roi.area Roi.rwidth Roi.rheight at h
  rcases mul_eq_zero.mp h with h' | h' <;> omega

theorem gate_a_zero_area (m : Mat) (roi : Roi) (h : roi.area = 0) :
    gate_a_cloud_visibility m roi = (0, 0, 0, 0, false) := by
  unfold gate_a_cloud_visibility
  rw [roiSlice_eq_nil_of_area_eq_zero m roi h]
  rfl

theorem gate_b_zero_area (m : Mat) (roi : Roi) (h : roi.area = 0) :
    gate_b_transition_count m roi = (0, false, []) := by
  unfold gate_b_transition_count
  rw [if_pos]
  rcases area_eq_zero_cases h with h' | h'
  · exact Or.inl (by omega)
  · exact Or.inr (by omega)

theorem gate_c_zero_area (m : Mat) (roi : Roi) (h : roi.area = 0) :
    gate_c_star_density m roi = (0, false) := by
  unfold gate_c_star_density
  rw [roiSlice_eq_nil_of_area_eq_zero m roi h]
  rfl

theorem gate_d_zero_area (m : Mat) (roi : Roi) (h : roi.area = 0) :
    gate_d_non_black m roi = (0, 0, false) := by
  unfold gate_d_non_black
  rw [roiSlice_eq_nil_of_area_eq_zero m roi h]
  rfl

theorem roiSlice_length_ne_zero (m : Mat) (roi : Roi)
    (hx0 : 0 ≤ roi.x0) (hxw : roi.x1 ≤ (m.w : ℤ))
    (hy0 : 0 ≤ roi.y0) (hyh : roi.y1 ≤ (m.h : ℤ))
    (harea : roi.area ≠ 0) : (roiSlice m roi).length ≠ 0 := by
  intro h0
  apply harea
  have hlen := roiSlice_length_of_inBounds m roi hx0 hxw hy0 hyh
  rw [h0] at hlen
  exact_mod_cast hlen.symm

/-- Claim C2: for every ROI with nonzero area (lying inside the image, per
the data-model invariant), Gate A computes the 5th, 50th and 95th
percentiles of the blurred luminance inside the ROI, sets
`contrast = (p95 - p05) / max(p50, 1)`, and the ROI passes iff
`contrast >= 0.35`; the image-level Gate A of `verify_image` passes iff
both the left and the right ROI independently pass. -/
theorem claim_C2 (blurred : Mat) (roi : Roi)
    (hx0 : 0 ≤ roi.x0) (hxw : roi.x1 ≤ (blurred.w : ℤ))
    (hy0 : 0 ≤ roi.y0) (hyh : roi.y1 ≤ (blurred.h : ℤ))
    (harea : roi.area ≠ 0) :
    (gate_a_cloud_visibility blurred roi =
      (percentile (roiSlice blurred roi) 5,
       percentile (roiSlice blurred roi) 50,
       percentile (roiSlice blurred roi) 95,
       (percentile (roiSlice blurred roi) 95 -
           percentile (roiSlice blurred roi) 5) /
         max (percentile (roiSlice blurred roi) 50) 1,
       decide ((percentile (roiSlice blurred roi) 95 -
           percentile (roiSlice blurred roi) 5) /
         max (percentile (roiSlice blurred roi) 50) 1 ≥ GATE_A_CONTRAST_MIN)) ∧
     (gate_a_cloud_visibility blurred roi).2.2.2.2 =
       decide ((gate_a_cloud_visibility blurred roi).2.2.2.1 ≥
         GATE_A_CONTRAST_MIN)) ∧
    ∀ (blur : Mat → Mat) (img : RgbMat) (rm : Bool)
      (mm : Option MotionMetrics),
      ((verify_image blur img rm mm).getD 0 default).passed =
        ((gate_a_cloud_visibility (blur (calculate_luminance img))
            (get_rois img.w img.h).1).2.2.2.2 &&
         (gate_a_cloud_visibility (blur (calculate_luminance img))
            (get_rois img.w img.h).2).2.2.2.2) := by
  have hlen := roiSlice_length_ne_zero blurred roi hx0 hxw hy0 hyh harea
  have hg : gate_a_cloud_visibility blurred roi =
      (percentile (roiSlice blurred roi) 5,
       percentile (roiSlice blurred roi) 50,
       percentile (roiSlice blurred roi) 95,
       (percentile (roiSlice blurred roi) 95 -
           percentile (roiSlice blurred roi) 5) /
         max (percentile (roiSlice blurred roi) 50) 1,
       decide ((percentile (roiSlice blurred roi) 95 -
           percentile (roiSlice blurred roi) 5) /
         max (percentile (roiSlice blurred roi) 50) 1 ≥ GATE_A_CONTRAST_MIN)) := by
    unfold gate_a_cloud_visibility
    rw [if_neg hlen]
  refine ⟨⟨hg, ?_⟩, ?_⟩
  · rw [hg]
  · intro blur img rm mm
    rfl

theorem claim_C2_witness :
    ((0 : ℤ) ≤ (Roi.mk "" 0 2 0 2).x0 ∧
     (Roi.mk "" 0 2 0 2).x1 ≤ ((Mat.mk 2 2 fun _ _ => 5).w : ℤ) ∧
     (0 : ℤ) ≤ (Roi.mk "" 0 2 0 2).y0 ∧
     (Roi.mk "" 0 2 0 2).y1 ≤ ((Mat.mk 2 2 fun _ _ => 5).h : ℤ) ∧
     (Roi.mk "" 0 2 0 2).area ≠ 0) ∧
    (gate_a_cloud_visibility (Mat.mk 2 2 fun _ _ => 5)
        (Roi.mk "" 0 2 0 2)).2.2.2.2 =
      decide ((gate_a_cloud_visibility (Mat.mk 2 2 fun _ _ => 5)
        (Roi.mk "" 0 2 0 2)).2.2.2.1 ≥ GATE_A_CONTRAST_MIN) :=
  ⟨⟨by decide, by decide, by decide, by decide, by decide⟩,
   ((claim_C2 (Mat.mk 2 2 fun _ _ => 5) (Roi.mk "" 0 2 0 2)
      (by decide) (by decide) (by decide) (by decide) (by decide)).1).2⟩

/-- Claim C6: for every ROI with nonzero area (inside the image), Gate C
counts raw-luminance pixels at least 200, sets
`density = count / ROI pixel count`, and passes iff `density >= 0.0005`;
the image-level Gate C of `verify_image` needs both ROIs; a ROI where
exactly 1 in 1000 pixels is star-bright passes, one with 1 in 5000 fails. -/
theorem claim_C6 (luma : Mat) (roi : Roi)
    (hx0 : 0 ≤ roi.x0) (hxw : roi.x1 ≤ (luma.w : ℤ))
    (hy0 : 0 ≤ roi.y0) (hyh : roi.y1 ≤ (luma.h : ℤ))
    (harea : roi.area ≠ 0) :
    (gate_c_star_density luma roi =
      ((((roiSlice luma roi).filter fun v =>
           GATE_C_STAR_LUMA_MIN ≤ v).length : ℚ) / (roiSlice luma roi).length,
       decide ((((roiSlice luma roi).filter fun v =>
           GATE_C_STAR_LUMA_MIN ≤ v).length : ℚ) / (roiSlice luma roi).length ≥
         GATE_C_STAR_DENSITY_MIN))) ∧
    (((roiSlice luma roi).filter fun v =>
         GATE_C_STAR_LUMA_MIN ≤ v).length * 1000 = (roiSlice luma roi).length →
      (gate_c_star_density luma roi).2 = true) ∧
    (((roiSlice luma roi).filter fun v =>
         GATE_C_STAR_LUMA_MIN ≤ v).length * 5000 = (roiSlice luma roi).length →
      (gate_c_star_density luma roi).2 = false) ∧
    ∀ (blur : Mat → Mat) (img : RgbMat) (rm : Bool)
      (mm : Option MotionMetrics),
      ((verify_image blur img rm mm).getD 2 default).passed =
        ((gate_c_star_density (calculate_luminance img)
            (get_rois img.w img.h).1).2 &&
         (gate_c_star_density (calculate_luminance img)
            (get_rois img.w img.h).2).2) := by
  have hlen := roiSlice_length_ne_zero luma roi hx0 hxw hy0 hyh harea
  have hg : gate_c_star_density luma roi =
      ((((roiSlice luma roi).filter fun v =>
           GATE_C_STAR_LUMA_MIN ≤ v).length : ℚ) / (roiSlice luma roi).length,
       decide ((((roiSlice luma roi).filter fun v =>
           GATE_C_STAR_LUMA_MIN ≤ v).length : ℚ) / (roiSlice luma roi).length ≥
         GATE_C_STAR_DENSITY_MIN)) := by
    unfold gate_c_star_density
    rw [if_neg hlen]
  refine ⟨hg, ?_, ?_, ?_⟩
  · intro hc
    have hcne : ((roiSlice luma roi).filter fun v =>
        GATE_C_STAR_LUMA_MIN ≤ v).length ≠ 0 := by omega
    have hcq : ((((roiSlice luma roi).filter fun v =>
        GATE_C_STAR_LUMA_MIN ≤ v).length : ℕ) : ℚ) ≠ 0 := Nat.cast_ne_zero.mpr hcne
    have hnq : (((roiSlice luma roi).length : ℕ) : ℚ) =
        ((((roiSlice luma roi).filter fun v =>
          GATE_C_STAR_LUMA_MIN ≤ v).length : ℕ) : ℚ) * 1000 := by
      exact_mod_cast hc.symm
    have hd : ((((roiSlice luma roi).filter fun v =>
        GATE_C_STAR_LUMA_MIN ≤ v).length : ℕ) : ℚ) /
          (roiSlice luma roi).length = 1/1000 := by
      rw [hnq, div_eq_div_iff (by positivity) (by norm_num)]
      ring
    rw [hg]
    simp only [hd]
    norm_num [GATE_C_STAR_DENSITY_MIN]
  · intro hc
    have hcne : ((roiSlice luma roi).filter fun v =>
        GATE_C_STAR_LUMA_MIN ≤ v).length ≠ 0 := by omega
    have hcq : ((((roiSlice luma roi).filter fun v =>
        GATE_C_STAR_LUMA_MIN ≤ v).length : ℕ) : ℚ) ≠ 0 := Nat.cast_ne_zero.mpr hcne
    have hnq : (((roiSlice luma roi).length : ℕ) : ℚ) =
        ((((roiSlice luma roi).filter fun v =>
          GATE_C_STAR_LUMA_MIN ≤ v).length : ℕ) : ℚ) * 5000 := by
      exact_mod_cast hc.symm
    have hd : ((((roiSlice luma roi).filter fun v =>
        GATE_C_STAR_LUMA_MIN ≤ v).length : ℕ) : ℚ) /
          (roiSlice luma roi).length = 1/5000 := by
      rw [hnq, div_eq_div_iff (by positivity) (by norm_num)]
      ring
    rw [hg]
    simp only [hd]
    norm_num [GATE_C_STAR_DENSITY_MIN]
  · intro blur img rm mm
    rfl

theorem claim_C6_witness :
    (((0 : ℤ) ≤ (Roi.mk "" 0 1000 0 1).x0 ∧
      (Roi.mk "" 0 1000 0 1).x1 ≤
        ((Mat.mk 1 1000 fun _ x => if x = 0 then 255 else 0).w : ℤ) ∧
      (0 : ℤ) ≤ (Roi.mk "" 0 1000 0 1).y0 ∧
      (Roi.mk "" 0 1000 0 1).y1 ≤
        ((Mat.mk 1 1000 fun _ x => if x = 0 then 255 else 0).h : ℤ) ∧
      (Roi.mk "" 0 1000 0 1).area ≠ 0) ∧
     ((roiSlice (Mat.mk 1 1000 fun _ x => if x = 0 then 255 else 0)
         (Roi.mk "" 0 1000 0 1)).filter fun v =>
         GATE_C_STAR_LUMA_MIN ≤ v).length * 1000 =
       (roiSlice (Mat.mk 1 1000 fun _ x => if x = 0 then 255 else 0)
         (Roi.mk "" 0 1000 0 1)).length) ∧
    (gate_c_star_density (Mat.mk 1 1000 fun _ x => if x = 0 then 255 else 0)
      (Roi.mk "" 0 1000 0 1)).2 = true :=
  ⟨⟨⟨by decide, by decide, by decide, by decide, by decide⟩, by decide⟩,
   (claim_C6 (Mat.mk 1 1000 fun _ x => if x = 0 then 255 else 0)
      (Roi.mk "" 0 1000 0 1) (by decide) (by decide) (by decide) (by decide)
      (by decide)).2.1 (by decide)⟩

theorem gate_a_pair_false (m : Mat) (r1 r2 : Roi)
    (h : r1.area = 0 ∨ r2.area = 0) :
    ((gate_a_cloud_visibility m r1).2.2.2.2 &&
      (gate_a_cloud_visibility m r2).2.2.2.2) = false := by
  rcases h with h | h
  · rw [gate_a_zero_area _ _ h]
    rfl
  · rw [gate_a_zero_area _ _ h, Bool.and_false]

theorem gate_b_pair_false (m : Mat) (r1 r2 : Roi)
    (h : r1.area = 0 ∨ r2.area = 0) :
    ((gate_b_transition_count m r1).2.1 &&
      (gate_b_transition_count m r2).2.1 &&
      decide ((gate_b_transition_count m r1).1 +
        (gate_b_transition_count m r2).1 ≥ GATE_B_TOTAL_TRANSITIONS_MIN)) =
      false := by
  rcases h with h | h
  · rw [gate_b_zero_area _ _ h]
    rfl
  · rw [gate_b_zero_area _ _ h, Bool.and_false, Bool.false_and]

theorem gate_c_pair_false (m : Mat) (r1 r2 : Roi)
    (h : r1.area = 0 ∨ r2.area = 0) :
    ((gate_c_star_density m r1).2 && (gate_c_star_density m r2).2) = false := by
  rcases h with h | h
  · rw [gate_c_zero_area _ _ h]
    rfl
  · rw [gate_c_zero_area _ _ h, Bool.and_false]

theorem gate_d_pair_false (m : Mat) (r1 r2 : Roi)
    (h : r1.area = 0 ∨ r2.area = 0) :
    ((gate_d_non_black m r1).2.2 && (gate_d_non_black m r2).2.2) = false := by
  rcases h with h | h
  · rw [gate_d_zero_area _ _ h]
    rfl
  · rw [gate_d_zero_area _ _ h, Bool.and_false]

/-- Claim C8: for every zero-area ROI, Gates A, B, C and D each return
their failing fail-closed value (passed = false) instead of raising (the
embedded gates are total functions), and at the `verify_image` level the
four corresponding `GateResult`s carry `passed = false` together with a
nonempty diagnostic list whenever either resolved ROI has zero area. -/
theorem claim_C8 (m : Mat) (roi : Roi) (h : roi.area = 0) :
    gate_a_cloud_visibility m roi = (0, 0, 0, 0, false) ∧
    gate_b_transition_count m roi = (0, false, []) ∧
    gate_c_star_density m roi = (0, false) ∧
    gate_d_non_black m roi = (0, 0, false) ∧
    ∀ (blur : Mat → Mat) (img : RgbMat) (rm : Bool)
      (mm : Option MotionMetrics),
      ((get_rois img.w img.h).1.area = 0 ∨ (get_rois img.w img.h).2.area = 0) →
      (((verify_image blur img rm mm).getD 0 default).passed = false ∧
       ((verify_image blur img rm mm).getD 0 default).details ≠ []) ∧
      (((verify_image blur img rm mm).getD 1 default).passed = false ∧
       ((verify_image blur img rm mm).getD 1 default).details ≠ []) ∧
      (((verify_image blur img rm mm).getD 2 default).passed = false ∧
       ((verify_image blur img rm mm).getD 2 default).details ≠ []) ∧
      (((verify_image blur img rm mm).getD 3 default).passed = false ∧
       ((verify_image blur img rm mm).getD 3 default).details ≠ []) := by
  refine ⟨gate_a_zero_area m roi h, gate_b_zero_area m roi h,
    gate_c_zero_area m roi h, gate_d_zero_area m roi h, ?_⟩
  intro blur img rm mm hz
  exact ⟨⟨gate_a_pair_false _ _ _ hz, by simp [verify_image]⟩,
    ⟨gate_b_pair_false _ _ _ hz, by simp [verify_image]⟩,
    ⟨gate_c_pair_false _ _ _ hz, by simp [verify_image]⟩,
    ⟨gate_d_pair_false _ _ _ hz, by simp [verify_image]⟩⟩

theorem claim_C8_witness :
    (Roi.mk "" 0 0 0 1).area = 0 ∧
    gate_a_cloud_visibility (Mat.mk 1 1 fun _ _ => 0) (Roi.mk "" 0 0 0 1) =
      (0, 0, 0, 0, false) :=
  ⟨by decide,
   (claim_C8 (Mat.mk 1 1 fun _ _ => 0) (Roi.mk "" 0 0 0 1) (by decide)).1⟩

theorem movingRatio_self (la : Mat) (roi : Roi) :
    movingRatio (absDiff la la) roi = 0 := by
  unfold movingRatio
  dsimp only
  split_ifs with h
  · rfl
  · have hfil : (roiSlice (absDiff la la) roi).filter
        (fun v => decide (GATE_E_MOTION_DELTA_MIN ≤ v)) = [] := by
      rw [List.filter_eq_nil_iff]
      intro v hv
      obtain ⟨y, x, rfl⟩ := mem_roiSlice hv
      simp [absDiff, GATE_E_MOTION_DELTA_MIN]
    rw [hfil]
    simp

theorem movingRatio_const50 (diff : Mat) (roi : Roi)
    (hall : ∀ v ∈ roiSlice diff roi, v = 50)
    (hne : roiSlice diff roi ≠ []) : movingRatio diff roi = 1 := by
  unfold movingRatio
  have hlen : (roiSlice diff roi).length ≠ 0 := by
    simpa [List.length_eq_zero] using hne
  rw [if_neg hlen]
  have hfil : (roiSlice diff roi).filter
      (fun v => decide (GATE_E_MOTION_DELTA_MIN ≤ v)) = roiSlice diff roi := by
    rw [List.filter_eq_self]
    intro v hv
    rw [hall v hv]
    norm_num [GATE_E_MOTION_DELTA_MIN]
  rw [hfil, div_self (Nat.cast_ne_zero.mpr hlen)]

/-- Claim C4: Gate E computes, per adjacent frame pair, the absolute
luminance delta field and per ROI the fraction of ROI pixels with delta at
least 2.0, averages that per-pair ratio per ROI, and passes iff the average
is at least 0.002 for each ROI independently; on identical frames every
moving ratio is 0 and the gate fails; on two frames whose luminance differs
by a constant 50 everywhere in an ROI, that ROI's moving ratio is 1. -/
theorem claim_C4 (frames : List RgbMat) (fa fb : RgbMat) (left right : Roi) :
    ((compute_motion_metrics frames left right).per_pair_left =
       (frames.zip frames.tail).map (fun p =>
         movingRatio (absDiff (calculate_luminance p.1)
           (calculate_luminance p.2)) left) ∧
     (compute_motion_metrics frames left right).per_pair_right =
       (frames.zip frames.tail).map (fun p =>
         movingRatio (absDiff (calculate_luminance p.1)
           (calculate_luminance p.2)) right) ∧
     (compute_motion_metrics frames left right).avg_left =
       (if (compute_motion_metrics frames left right).per_pair_left.length = 0
        then 0
        else (compute_motion_metrics frames left right).per_pair_left.sum /
          (compute_motion_metrics frames left right).per_pair_left.length) ∧
     (compute_motion_metrics frames left right).avg_right =
       (if (compute_motion_metrics frames left right).per_pair_right.length = 0
        then 0
        else (compute_motion_metrics frames left right).per_pair_right.sum /
          (compute_motion_metrics frames left right).per_pair_right.length) ∧
     (compute_motion_metrics frames left right).passed_left =
       decide ((compute_motion_metrics frames left right).avg_left ≥
         GATE_E_MOVING_RATIO_MIN) ∧
     (compute_motion_metrics frames left right).passed_right =
       decide ((compute_motion_metrics frames left right).avg_right ≥
         GATE_E_MOVING_RATIO_MIN)) ∧
    ((∀ p ∈ frames.zip frames.tail, p.1 = p.2) →
      (∀ v ∈ (compute_motion_metrics frames left right).per_pair_left, v = 0) ∧
      (∀ v ∈ (compute_motion_metrics frames left right).per_pair_right, v = 0) ∧
      (compute_motion_metrics frames left right).avg_left = 0 ∧
      (compute_motion_metrics frames left right).avg_right = 0 ∧
      ((compute_motion_metrics frames left right).passed_left &&
        (compute_motion_metrics frames left right).passed_right) = false) ∧
    ((∀ v ∈ roiSlice (absDiff (calculate_luminance fa)
        (calculate_luminance fb)) left, v = 50) →
      roiSlice (absDiff (calculate_luminance fa)
        (calculate_luminance fb)) left ≠ [] →
      (compute_motion_metrics [fa, fb] left right).per_pair_left = [1]) := by
  refine ⟨⟨?_, ?_, rfl, rfl, rfl, rfl⟩, ?_, ?_⟩
  · simp [compute_motion_metrics, List.map_map, Function.comp]
  · simp [compute_motion_metrics, List.map_map, Function.comp]
  · intro hid
    have hzero : ∀ v ∈ (compute_motion_metrics frames left right).per_pair_left,
        v = 0 := by
      intro v hv
      simp only [compute_motion_metrics, List.mem_map, List.map_map] at hv
      obtain ⟨p, hp, rfl⟩ := hv
      dsimp only [Function.comp]
      rw [hid p hp]
      exact movingRatio_self _ _
    have hzero' : ∀ v ∈ (compute_motion_metrics frames left right).per_pair_right,
        v = 0 := by
      intro v hv
      simp only [compute_motion_metrics, List.mem_map, List.map_map] at hv
      obtain ⟨p, hp, rfl⟩ := hv
      dsimp only [Function.comp]
      rw [hid p hp]
      exact movingRatio_self _ _
    have havgl : (compute_motion_metrics frames left right).avg_left = 0 := by
      show (if (compute_motion_metrics frames left right).per_pair_left.length = 0
        then (0:ℚ)
        else (compute_motion_metrics frames left right).per_pair_left.sum /
          (compute_motion_metrics frames left right).per_pair_left.length) = 0
      split_ifs with h
      · rfl
      · rw [List.sum_eq_zero hzero, zero_div]
    have havgr : (compute_motion_metrics frames left right).avg_right = 0 := by
      show (if (compute_motion_metrics frames left right).per_pair_right.length = 0
        then (0:ℚ)
        else (compute_motion_metrics frames left right).per_pair_right.sum /
          (compute_motion_metrics frames left right).per_pair_right.length) = 0
      split_ifs with h
      · rfl
      · rw [List.sum_eq_zero hzero', zero_div]
    refine ⟨hzero, hzero', havgl, havgr, ?_⟩
    have hpl : (compute_motion_metrics frames left right).passed_left = false := by
      show decide ((compute_motion_metrics frames left right).avg_left ≥
        GATE_E_MOVING_RATIO_MIN) = false
      rw [havgl, decide_eq_false_iff_not]
      norm_num [GATE_E_MOVING_RATIO_MIN]
    rw [hpl, Bool.false_and]
  · intro hall hne
    have h1 : movingRatio (absDiff (calculate_luminance fa)
        (calculate_luminance fb)) left = 1 := movingRatio_const50 _ _ hall hne
    show [movingRatio (absDiff (calculate_luminance fa)
      (calculate_luminance fb)) left] = [1]
    rw [h1]

theorem claim_C4_witness :
    (∀ p ∈ ([RgbMat.mk 1 1 (fun _ _ => 0) (fun _ _ => 0) (fun _ _ => 0),
        RgbMat.mk 1 1 (fun _ _ => 0) (fun _ _ => 0) (fun _ _ => 0)]).zip
        ([RgbMat.mk 1 1 (fun _ _ => 0) (fun _ _ => 0) (fun _ _ => 0),
        RgbMat.mk 1 1 (fun _ _ => 0) (fun _ _ => 0) (fun _ _ => 0)]).tail,
      p.1 = p.2) ∧
    ((compute_motion_metrics
        [RgbMat.mk 1 1 (fun _ _ => 0) (fun _ _ => 0) (fun _ _ => 0),
         RgbMat.mk 1 1 (fun _ _ => 0) (fun _ _ => 0) (fun _ _ => 0)]
        (Roi.mk "" 0 1 0 1) (Roi.mk "" 0 1 0 1)).passed_left &&
      (compute_motion_metrics
        [RgbMat.mk 1 1 (fun _ _ => 0) (fun _ _ => 0) (fun _ _ => 0),
         RgbMat.mk 1 1 (fun _ _ => 0) (fun _ _ => 0) (fun _ _ => 0)]
        (Roi.mk "" 0 1 0 1) (Roi.mk "" 0 1 0 1)).passed_right) = false ∧
    (compute_motion_metrics
        [RgbMat.mk 1 1 (fun _ _ => 0) (fun _ _ => 0) (fun _ _ => 0),
         RgbMat.mk 1 1 (fun _ _ => 50) (fun _ _ => 50) (fun _ _ => 50)]
        (Roi.mk "" 0 1 0 1) (Roi.mk "" 0 1 0 1)).per_pair_left = [1] :=
  ⟨by simp,
   ((claim_C4
      [RgbMat.mk 1 1 (fun _ _ => 0) (fun _ _ => 0) (fun _ _ => 0),
       RgbMat.mk 1 1 (fun _ _ => 0) (fun _ _ => 0) (fun _ _ => 0)]
      (RgbMat.mk 1 1 (fun _ _ => 0) (fun _ _ => 0) (fun _ _ => 0))
      (RgbMat.mk 1 1 (fun _ _ => 50) (fun _ _ => 50) (fun _ _ => 50))
      (Roi.mk "" 0 1 0 1) (Roi.mk "" 0 1 0 1)).2.1 (by simp)).2.2.2.2,
   (claim_C4
      [RgbMat.mk 1 1 (fun _ _ => 0) (fun _ _ => 0) (fun _ _ => 0),
       RgbMat.mk 1 1 (fun _ _ => 0) (fun _ _ => 0) (fun _ _ => 0)]
      (RgbMat.mk 1 1 (fun _ _ => 0) (fun _ _ => 0) (fun _ _ => 0))
      (RgbMat.mk 1 1 (fun _ _ => 50) (fun _ _ => 50) (fun _ _ => 50))
      (Roi.mk "" 0 1 0 1) (Roi.mk "" 0 1 0 1)).2.2
      (by
        intro v hv
        norm_num [roiSlice, absDiff, calculate_luminance, List.range'_one] at hv
        exact hv)
      (by norm_num [roiSlice, absDiff, calculate_luminance, List.range'_one])⟩

theorem sumsq_ne_zero_of_mem {a : List ℕ} {c : ℕ} (hc : c ∈ a) (hne : c ≠ 0) :
    sumsq a ≠ 0 := fun h => hne (sumsq_eq_zero_entries h c hc)

/-- Claim C5: Gate F computes a 64-bin histogram of the blurred luminance
over `[0, 255]` per required level screenshot and compares the pairwise
correlation of the L2-normalized histograms (represented here by its square
`corrSq`, faithful for the non-negative correlation) against 0.75 for the
pairs (level 1, level 10) and (level 10, level 20); three identical
screenshots with a nonzero histogram give correlation exactly 1 on both
pairs, which fails both checks. -/
theorem claim_C5 (blur : Mat → Mat) (levels : ℕ → Option RgbMat)
    (img1 img10 img20 img : RgbMat)
    (h1 : levels 1 = some img1) (h10 : levels 10 = some img10)
    (h20 : levels 20 = some img20) :
    (gate_f_theme_separation blur levels =
      .ok (corrSq (blurred_hist blur img1) (blurred_hist blur img10),
           corrSq (blurred_hist blur img10) (blurred_hist blur img20),
           decide (corrSq (blurred_hist blur img1) (blurred_hist blur img10) ≤
             GATE_F_CORRELATION_MAX_SQ),
           decide (corrSq (blurred_hist blur img10) (blurred_hist blur img20) ≤
             GATE_F_CORRELATION_MAX_SQ))) ∧
    ((hist64 (blur (calculate_luminance img))).length = 64 ∧
     ∀ i, i < 64 → (hist64 (blur (calculate_luminance img))).getD i 0 =
       binCount (allVals (blur (calculate_luminance img))) i) ∧
    (sumsq (blurred_hist blur img) ≠ 0 →
      gate_f_theme_separation blur (fun _ => some img) =
        .ok (1, 1, false, false) ∧
      gate_f_flag (gate_f_theme_separation blur (fun _ => some img)) = false) := by
  refine ⟨?_, ⟨by simp [hist64, blurred_hist], ?_⟩, ?_⟩
  · simp only [gate_f_theme_separation, h1, h10, h20]
  · intro i hi
    rw [List.getD_eq_getElem _ _ (by simpa [hist64] using hi)]
    simp [hist64]
  · intro hS
    have hself := corrSq_self hS
    have hok : gate_f_theme_separation blur (fun _ => some img) =
        .ok (1, 1, false, false) := by
      show Except.ok
        (corrSq (blurred_hist blur img) (blurred_hist blur img),
         corrSq (blurred_hist blur img) (blurred_hist blur img),
         decide (corrSq (blurred_hist blur img) (blurred_hist blur img) ≤
           GATE_F_CORRELATION_MAX_SQ),
         decide (corrSq (blurred_hist blur img) (blurred_hist blur img) ≤
           GATE_F_CORRELATION_MAX_SQ)) = .ok (1, 1, false, false)
      rw [hself]
      norm_num [GATE_F_CORRELATION_MAX_SQ]
    exact ⟨hok, by rw [hok]; rfl⟩

theorem claim_C5_witness :
    ((fun _ => some (RgbMat.mk 1 1 (fun _ _ => 255) (fun _ _ => 255)
        (fun _ _ => 255)) : ℕ → Option RgbMat) 1 =
      some (RgbMat.mk 1 1 (fun _ _ => 255) (fun _ _ => 255) (fun _ _ => 255)) ∧
     sumsq (blurred_hist id (RgbMat.mk 1 1 (fun _ _ => 255) (fun _ _ => 255)
        (fun _ _ => 255))) ≠ 0) ∧
    gate_f_theme_separation id
      (fun _ => some (RgbMat.mk 1 1 (fun _ _ => 255) (fun _ _ => 255)
        (fun _ _ => 255))) = .ok (1, 1, false, false) := by
  have hS : sumsq (blurred_hist id (RgbMat.mk 1 1 (fun _ _ => 255)
      (fun _ _ => 255) (fun _ _ => 255))) ≠ 0 := by
    apply sumsq_ne_zero_of_mem
      (c := binCount (allVals (id (calculate_luminance (RgbMat.mk 1 1
        (fun _ _ => 255) (fun _ _ => 255) (fun _ _ => 255))))) 63)
    · exact List.mem_map_of_mem _ (by decide)
    · norm_num [binCount, allVals, calculate_luminance]
  exact ⟨⟨rfl, hS⟩,
    ((claim_C5 id
      (fun _ => some (RgbMat.mk 1 1 (fun _ _ => 255) (fun _ _ => 255)
        (fun _ _ => 255)))
      (RgbMat.mk 1 1 (fun _ _ => 255) (fun _ _ => 255) (fun _ _ => 255))
      (RgbMat.mk 1 1 (fun _ _ => 255) (fun _ _ => 255) (fun _ _ => 255))
      (RgbMat.mk 1 1 (fun _ _ => 255) (fun _ _ => 255) (fun _ _ => 255))
      (RgbMat.mk 1 1 (fun _ _ => 255) (fun _ _ => 255) (fun _ _ => 255))
      rfl rfl rfl).2.2 hS).1⟩

/-- Claim C10: a level screenshot whose 64-bin histogram is all zero
(L2 norm zero, e.g. an empty pixel buffer or one with no pixels in
`[0, 255]`) is used unnormalized; its dot product with any histogram is 0,
whose (squared) correlation 0 is at most the 0.75 threshold, so every
checked pair involving the degenerate screenshot passes the
theme-separation check instead of being rejected as an error. -/
theorem claim_C10 (blur : Mat → Mat) (levels : ℕ → Option RgbMat)
    (a b : List ℕ) (img1 img10 img20 : RgbMat)
    (h1 : levels 1 = some img1) (h10 : levels 10 = some img10)
    (h20 : levels 20 = some img20)
    (hz : sumsq (blurred_hist blur img10) = 0) :
    (sumsq a = 0 →
      (∀ c ∈ a, c = 0) ∧ dotH a b = 0 ∧
      corrSq a b = 0 ∧ corrSq b a = 0 ∧
      decide (corrSq a b ≤ GATE_F_CORRELATION_MAX_SQ) = true ∧
      decide (corrSq b a ≤ GATE_F_CORRELATION_MAX_SQ) = true) ∧
    gate_f_theme_separation blur levels = .ok (0, 0, true, true) := by
  constructor
  · intro ha
    refine ⟨sumsq_eq_zero_entries ha, dotH_zero_left b (sumsq_eq_zero_entries ha),
      corrSq_zero_left a b ha, corrSq_zero_right b a ha, ?_, ?_⟩
    · rw [corrSq_zero_left a b ha]
      norm_num [GATE_F_CORRELATION_MAX_SQ]
    · rw [corrSq_zero_right b a ha]
      norm_num [GATE_F_CORRELATION_MAX_SQ]
  · simp only [gate_f_theme_separation, h1, h10, h20]
    rw [corrSq_zero_right _ _ hz, corrSq_zero_left _ _ hz]
    norm_num [GATE_F_CORRELATION_MAX_SQ]

theorem claim_C10_witness :
    ((fun _ => some (RgbMat.mk 0 0 (fun _ _ => 0) (fun _ _ => 0)
        (fun _ _ => 0)) : ℕ → Option RgbMat) 10 =
      some (RgbMat.mk 0 0 (fun _ _ => 0) (fun _ _ => 0) (fun _ _ => 0)) ∧
     sumsq (blurred_hist id (RgbMat.mk 0 0 (fun _ _ => 0) (fun _ _ => 0)
        (fun _ _ => 0))) = 0) ∧
    gate_f_theme_separation id
      (fun _ => some (RgbMat.mk 0 0 (fun _ _ => 0) (fun _ _ => 0)
        (fun _ _ => 0))) = .ok (0, 0, true, true) :=
  ⟨⟨rfl, by decide⟩,
   (claim_C10 id
      (fun _ => some (RgbMat.mk 0 0 (fun _ _ => 0) (fun _ _ => 0)
        (fun _ _ => 0)))
      [] []
      (RgbMat.mk 0 0 (fun _ _ => 0) (fun _ _ => 0) (fun _ _ => 0))
      (RgbMat.mk 0 0 (fun _ _ => 0) (fun _ _ => 0) (fun _ _ => 0))
      (RgbMat.mk 0 0 (fun _ _ => 0) (fun _ _ => 0) (fun _ _ => 0))
      rfl rfl rfl (by decide)).2⟩

theorem gate_f_missing (blur : Mat → Mat) (levels : ℕ → Option RgbMat)
    (hmiss : levels 1 = none ∨ levels 10 = none ∨ levels 20 = none) :
    gate_f_theme_separation blur levels =
      .error ("Missing required level screenshots: " ++
        pyIntListRepr ([1, 10, 20].filter fun lvl => (levels lvl).isNone)) := by
  rcases e1 : levels 1 with _ | v1
  · cases e10 : levels 10 <;> cases e20 : levels 20 <;>
      simp only [gate_f_theme_separation, e1, e10, e20]
  · rcases e10 : levels 10 with _ | v10
    · cases e20 : levels 20 <;>
        simp only [gate_f_theme_separation, e1, e10, e20]
    · rcases e20 : levels 20 with _ | v20
      · simp only [gate_f_theme_separation, e1, e10, e20]
      · rw [e1, e10, e20] at hmiss
        simp at hmiss

/-- Claim C7: missing required collaborator data never passes.  When motion
is required but no motion metrics are available, `verify_image` reports a
distinct failing Gate E result whose diagnostic names the missing frames,
and `main` forces the overall verdict to fail; when a required theme level
screenshot is missing, `gate_f_theme_separation` raises a configuration
error naming the missing levels and the orchestrator records Gate F as
failed. -/
theorem claim_C7 (blur : Mat → Mat) (img : RgbMat) (images : List RgbMat)
    (gfr : Except String (ℚ × ℚ × Bool × Bool))
    (levels : ℕ → Option RgbMat)
    (hmiss : levels 1 = none ∨ levels 10 = none ∨ levels 20 = none) :
    (gate_e_result none = ⟨"Gate E", false,
       ["Motion frames missing or insufficient (need >= 3 frames).",
        "Generate motion frames with decantra motion capture and rerun."]⟩ ∧
     gate_e_result none ∈ verify_image blur img true none ∧
     main_verify blur images true none gfr = false) ∧
    (gate_f_theme_separation blur levels =
       .error ("Missing required level screenshots: " ++
         pyIntListRepr ([1, 10, 20].filter fun lvl => (levels lvl).isNone)) ∧
     ([1, 10, 20].filter fun lvl => (levels lvl).isNone) ≠ [] ∧
     gate_f_flag (gate_f_theme_separation blur levels) = false) := by
  refine ⟨⟨rfl, ?_, rfl⟩, gate_f_missing blur levels hmiss, ?_, ?_⟩
  · simp [verify_image]
  · rcases hmiss with h | h | h
    · have hm : (1 : ℕ) ∈ [1, 10, 20].filter fun lvl => (levels lvl).isNone :=
        List.mem_filter.mpr ⟨by decide, by simp [h]⟩
      exact List.ne_nil_of_mem hm
    · have hm : (10 : ℕ) ∈ [1, 10, 20].filter fun lvl => (levels lvl).isNone :=
        List.mem_filter.mpr ⟨by decide, by simp [h]⟩
      exact List.ne_nil_of_mem hm
    · have hm : (20 : ℕ) ∈ [1, 10, 20].filter fun lvl => (levels lvl).isNone :=
        List.mem_filter.mpr ⟨by decide, by simp [h]⟩
      exact List.ne_nil_of_mem hm
  · rw [gate_f_missing blur levels hmiss]
    rfl

theorem claim_C7_witness :
    ((fun _ => (none : Option RgbMat)) 1 = none) ∧
    gate_f_theme_separation id (fun _ => (none : Option RgbMat)) =
      .error ("Missing required level screenshots: " ++
        pyIntListRepr ([1, 10, 20].filter fun lvl =>
          ((fun _ => (none : Option RgbMat)) lvl).isNone)) ∧
    main_verify id [] true none (Except.ok (0, 0, true, true)) = false :=
  ⟨rfl,
   ((claim_C7 id (RgbMat.mk 1 1 (fun _ _ => 0) (fun _ _ => 0) (fun _ _ => 0))
      [] (Except.ok (0, 0, true, true)) (fun _ => none) (Or.inl rfl)).2).1,
   ((claim_C7 id (RgbMat.mk 1 1 (fun _ _ => 0) (fun _ _ => 0) (fun _ _ => 0))
      [] (Except.ok (0, 0, true, true)) (fun _ => none) (Or.inl rfl)).1).2.2⟩

theorem verify_image_all_false_of_no_motion (blur : Mat → Mat) (img : RgbMat) :
    (verify_image blur img true none).all (·.passed) = false := by
  simp [verify_image, gate_e_result, List.all_append]

/-- Claim C1: the orchestrator's overall verdict is the logical AND of every
gate's pass flag across every evaluated image (Gates A-D per image, Gate E
when motion is required, Gate F once per image, which is idempotent under
AND), and the process exit code is 0 iff this overall verdict passes. -/
theorem claim_C1 (blur : Mat → Mat) (images : List RgbMat) (rm : Bool)
    (mm : Option MotionMetrics) (gfr : Except String (ℚ × ℚ × Bool × Bool))
    (hne : images ≠ []) :
    main_verify blur images rm mm gfr =
      ((images.all fun img => (verify_image blur img rm mm).all (·.passed)) &&
        gate_f_flag gfr) ∧
    (main_exit blur images rm mm gfr = 0 ↔
      main_verify blur images rm mm gfr = true) := by
  constructor
  · unfold main_verify
    dsimp only
    rw [show (fun (acc : Bool) (img : RgbMat) =>
          ((verify_image blur img rm mm).foldl
            (fun a res => a && res.passed) acc) && gate_f_flag gfr) =
        (fun (acc : Bool) (img : RgbMat) =>
          (acc && ((verify_image blur img rm mm).all (·.passed))) &&
            gate_f_flag gfr) from
      funext fun acc => funext fun img => by rw [foldl_and_passed]]
    rw [foldl_and_gate (fun img => (verify_image blur img rm mm).all (·.passed))
      (gate_f_flag gfr) images true hne]
    rw [Bool.true_and]
    split_ifs with h
    · have hb : rm = true ∧ mm.isNone = true := by simpa using h
      obtain ⟨hrm, hmm⟩ := hb
      have hmn : mm = none := Option.isNone_iff_eq_none.mp hmm
      subst hrm hmn
      obtain ⟨x, t, rfl⟩ : ∃ x t, images = x :: t := by
        cases images with
        | nil => exact absurd rfl hne
        | cons x t => exact ⟨x, t, rfl⟩
      rw [List.all_cons, verify_image_all_false_of_no_motion, Bool.false_and,
        Bool.false_and]
    · rfl
  · unfold main_exit
    split_ifs with h
    · simp [h]
    · simp [h]

theorem claim_C1_witness :
    ([RgbMat.mk 1 1 (fun _ _ => 0) (fun _ _ => 0) (fun _ _ => 0)] ≠
      ([] : List RgbMat)) ∧
    main_verify id [RgbMat.mk 1 1 (fun _ _ => 0) (fun _ _ => 0) (fun _ _ => 0)]
        false none (Except.error "x") =
      (([RgbMat.mk 1 1 (fun _ _ => 0) (fun _ _ => 0) (fun _ _ => 0)].all
          fun img => (verify_image id img false none).all (·.passed)) &&
        gate_f_flag (Except.error "x")) :=
  ⟨by simp,
   (claim_C1 id [RgbMat.mk 1 1 (fun _ _ => 0) (fun _ _ => 0) (fun _ _ => 0)]
      false none (Except.error "x") (by simp)).1⟩

/-- Claim C3: Gate B walks the closed rectangular path 3 pixels inside the
ROI border, samples the 5x5-window mean of the blurred field at each path
point, counts transitions with relative delta `|curr-prev| / max(prev,1)`
at least 0.35 over consecutive samples plus the wraparound comparison of
the last and first sample; a ROI passes iff its count is at least 4, and
the image-level gate passes iff both ROI counts are at least 4 and their
sum is at least 12. -/
theorem claim_C3 (m : Mat) (roi : Roi)
    (hx : roi.x0 + 3 < roi.x1 - 1 - 3) (hy : roi.y0 + 3 < roi.y1 - 1 - 3) :
    (gate_b_transition_count m roi =
      (countTransitions
         ((gateBPath (roi.x0 + 3) (roi.x1 - 1 - 3) (roi.y0 + 3)
            (roi.y1 - 1 - 3)).map fun p => average_window m roi p.1 p.2 5),
       decide (countTransitions
         ((gateBPath (roi.x0 + 3) (roi.x1 - 1 - 3) (roi.y0 + 3)
            (roi.y1 - 1 - 3)).map fun p => average_window m roi p.1 p.2 5) ≥
         GATE_B_ROI_TRANSITIONS_MIN),
       (gateBPath (roi.x0 + 3) (roi.x1 - 1 - 3) (roi.y0 + 3)
         (roi.y1 - 1 - 3)).map fun p => average_window m roi p.1 p.2 5)) ∧
    (∀ values : List ℚ, countTransitions values =
      ((values.zip values.tail).filter fun pc =>
        decide (relDelta pc.1 pc.2 ≥ GATE_B_RATIO_MIN)).length +
      (if relDelta (values.getLastD 0) (values.headD 0) ≥ GATE_B_RATIO_MIN
       then 1 else 0)) ∧
    (∀ (m' : Mat) (r' : Roi), (gate_b_transition_count m' r').2.1 =
      decide ((gate_b_transition_count m' r').1 ≥
        GATE_B_ROI_TRANSITIONS_MIN)) ∧
    ∀ (blur : Mat → Mat) (img : RgbMat) (rm : Bool)
      (mm : Option MotionMetrics),
      ((verify_image blur img rm mm).getD 1 default).passed =
        (decide ((gate_b_transition_count (blur (calculate_luminance img))
            (get_rois img.w img.h).1).1 ≥ GATE_B_ROI_TRANSITIONS_MIN) &&
         decide ((gate_b_transition_count (blur (calculate_luminance img))
            (get_rois img.w img.h).2).1 ≥ GATE_B_ROI_TRANSITIONS_MIN) &&
         decide ((gate_b_transition_count (blur (calculate_luminance img))
             (get_rois img.w img.h).1).1 +
           (gate_b_transition_count (blur (calculate_luminance img))
             (get_rois img.w img.h).2).1 ≥ GATE_B_TOTAL_TRANSITIONS_MIN)) := by
  have hB : ∀ (m' : Mat) (r' : Roi), (gate_b_transition_count m' r').2.1 =
      decide ((gate_b_transition_count m' r').1 ≥
        GATE_B_ROI_TRANSITIONS_MIN) := by
    intro m' r'
    unfold gate_b_transition_count
    dsimp only
    split_ifs <;> rfl
  refine ⟨?_, fun values => rfl, hB, ?_⟩
  · unfold gate_b_transition_count
    dsimp only
    rw [if_neg (by push_neg; omega)]
    rw [if_neg ?hlen]
    case hlen =>
      have hlen1 : (2 : ℕ) ≤ (gateBPath (roi.x0 + 3) (roi.x1 - 1 - 3)
          (roi.y0 + 3) (roi.y1 - 1 - 3)).length := by
        simp only [gateBPath, List.length_append, List.length_map,
          List.length_range]
        omega
      omega
  · intro blur img rm mm
    show ((gate_b_transition_count (blur (calculate_luminance img))
        (get_rois img.w img.h).1).2.1 &&
      (gate_b_transition_count (blur (calculate_luminance img))
        (get_rois img.w img.h).2).2.1 &&
      decide ((gate_b_transition_count (blur (calculate_luminance img))
          (get_rois img.w img.h).1).1 +
        (gate_b_transition_count (blur (calculate_luminance img))
          (get_rois img.w img.h).2).1 ≥ GATE_B_TOTAL_TRANSITIONS_MIN)) = _
    rw [hB, hB]

theorem claim_C3_witness :
    ((Roi.mk "" 0 9 0 9).x0 + 3 < (Roi.mk "" 0 9 0 9).x1 - 1 - 3 ∧
     (Roi.mk "" 0 9 0 9).y0 + 3 < (Roi.mk "" 0 9 0 9).y1 - 1 - 3) ∧
    gate_b_transition_count (Mat.mk 9 9 fun _ _ => 7) (Roi.mk "" 0 9 0 9) =
      (countTransitions
         ((gateBPath ((Roi.mk "" 0 9 0 9).x0 + 3)
            ((Roi.mk "" 0 9 0 9).x1 - 1 - 3) ((Roi.mk "" 0 9 0 9).y0 + 3)
            ((Roi.mk "" 0 9 0 9).y1 - 1 - 3)).map fun p =>
              average_window (Mat.mk 9 9 fun _ _ => 7) (Roi.mk "" 0 9 0 9)
                p.1 p.2 5),
       decide (countTransitions
         ((gateBPath ((Roi.mk "" 0 9 0 9).x0 + 3)
            ((Roi.mk "" 0 9 0 9).x1 - 1 - 3) ((Roi.mk "" 0 9 0 9).y0 + 3)
            ((Roi.mk "" 0 9 0 9).y1 - 1 - 3)).map fun p =>
              average_window (Mat.mk 9 9 fun _ _ => 7) (Roi.mk "" 0 9 0 9)
                p.1 p.2 5) ≥ GATE_B_ROI_TRANSITIONS_MIN),
       (gateBPath ((Roi.mk "" 0 9 0 9).x0 + 3)
          ((Roi.mk "" 0 9 0 9).x1 - 1 - 3) ((Roi.mk "" 0 9 0 9).y0 + 3)
          ((Roi.mk "" 0 9 0 9).y1 - 1 - 3)).map fun p =>
            average_window (Mat.mk 9 9 fun _ _ => 7) (Roi.mk "" 0 9 0 9)
              p.1 p.2 5) :=
  ⟨⟨by decide, by decide⟩,
   (claim_C3 (Mat.mk 9 9 fun _ _ => 7) (Roi.mk "" 0 9 0 9)
      (by decide) (by decide)).1⟩
